import Mathlib

/-!
# Magnum pixel formats: the implementation-specific tag codec

A shallow embedding of `src/Magnum/PixelFormat.h` and of the table
`src/Magnum/Vk/Implementation/compressedFormatMapping.hpp`.  A `PixelFormat` or
`CompressedPixelFormat` is a 32-bit unsigned identifier.  Its named enumerators
are the generic formats; the highest bit marks a value that wraps an
implementation-specific (native API) identifier.  The table associates every
compressed format with the name of a Vulkan format.

Machine integers are natural numbers and integers with explicit reduction
modulo a power of two.  The bitwise operators of the source (`&`, `|`, `<<`,
`~`) are the corresponding operations on `Nat`, at a width of 32 bits.
-/

namespace Magnum

/-! ## Integral types and conversions -/

/-- Integral (or enumeration) type used as a template argument, described by its
`sizeof` in bytes and its signedness. -/
structure IntegralType where
  /-- Result of `sizeof(T)`, in bytes. -/
  size : Nat
  /-- Whether the type is signed (two's complement). -/
  isSigned : Bool
deriving DecidableEq, Repr

namespace IntegralType

/-- Width of the type in bits. -/
def bits (T : IntegralType) : Nat := 8 * T.size

/-- Integral conversion `T(x)`: the unique value of `T` congruent to `x` modulo
`2 ^ bits`. -/
def convert (T : IntegralType) (x : Int) : Int :=
  let r := x % 2 ^ T.bits
  if T.isSigned && decide (2 ^ (T.bits - 1) ≤ r) then r - 2 ^ T.bits else r

end IntegralType

/-- Modelled from the spec: the typedef `UnsignedInt` of `Magnum/Magnum.h` is not
part of the sources; identifiers are 32-bit unsigned values. -/
def UnsignedInt : IntegralType := ⟨4, false⟩

/-- Modelled from the spec: the typedef `UnsignedShort` of `Magnum/Magnum.h`, a
16-bit unsigned integer. -/
def UnsignedShort : IntegralType := ⟨2, false⟩

/-- The conversion `UnsignedInt(x)` of an integral value, as a natural number
below `2 ^ 32`. -/
def toUnsignedInt (x : Int) : Nat := (UnsignedInt.convert x).toNat

/-- The operator `~` on an `UnsignedInt`: all 32 bits flipped. -/
def complement (x : Nat) : Nat := 2 ^ 32 - 1 - x % 2 ^ 32

/-! ## Assertions -/

/-- The two ways a call can be rejected. -/
inductive Failure where
  /-- A `static_assert` fired: the instantiation does not compile. -/
  | staticAssert (message : String)
  /-- A `CORRADE_CONSTEXPR_ASSERT` precondition check failed. -/
  | assertion (message : String)
deriving DecidableEq, Repr

deriving instance DecidableEq for Except

/-- Modelled from the spec: the macro `CORRADE_CONSTEXPR_ASSERT` of
`Corrade/Utility/Assert.h` is not part of the sources.  The expression
`CORRADE_CONSTEXPR_ASSERT(condition, message), value` yields `value` when the
condition holds and fails fatally with the message otherwise (assertions
enabled). -/
def constexprAssert {α : Type} (condition : Bool) (message : String) (value : α) :
    Except Failure α :=
  if condition then .ok value else .error (.assertion message)

/-! ## The identifier type -/

/-- The enumeration `enum class PixelFormat: UnsignedInt`: any 32-bit unsigned
value. -/
structure PixelFormat where
  /-- The underlying value `UnsignedInt(format)`. -/
  value : Nat
  /-- The underlying type has 32 bits. -/
  isLt : value < 2 ^ 32
deriving DecidableEq, Repr

namespace PixelFormat

/-- The explicit conversion `PixelFormat(x)` from an `UnsignedInt`. -/
def ofUnsignedInt (x : Nat) : PixelFormat := ⟨x % 2 ^ 32, Nat.mod_lt x (by decide)⟩

/-- An enumerator without an initializer has the value of the previous one
plus one. -/
def next (previous : PixelFormat) : PixelFormat := ofUnsignedInt (previous.value + 1)

/-! ### The named enumerators of `PixelFormat`, in declaration order

Zero is reserved for an invalid format and is not a named value. -/

/-- Enumerator `R8Unorm = 1`. -/
def R8Unorm : PixelFormat := ofUnsignedInt 1

/-- Enumerator `RG8Unorm`, following `R8Unorm`. -/
def RG8Unorm : PixelFormat := next R8Unorm

/-- Enumerator `RGB8Unorm`, following `RG8Unorm`. -/
def RGB8Unorm : PixelFormat := next RG8Unorm

/-- Enumerator `RGBA8Unorm`, following `RGB8Unorm`. -/
def RGBA8Unorm : PixelFormat := next RGB8Unorm

/-- Enumerator `R8Snorm`, following `RGBA8Unorm`. -/
def R8Snorm : PixelFormat := next RGBA8Unorm

/-- Enumerator `RG8Snorm`, following `R8Snorm`. -/
def RG8Snorm : PixelFormat := next R8Snorm

/-- Enumerator `RGB8Snorm`, following `RG8Snorm`. -/
def RGB8Snorm : PixelFormat := next RG8Snorm

/-- Enumerator `RGBA8Snorm`, following `RGB8Snorm`. -/
def RGBA8Snorm : PixelFormat := next RGB8Snorm

/-- Enumerator `R8Srgb`, following `RGBA8Snorm`. -/
def R8Srgb : PixelFormat := next RGBA8Snorm

/-- Enumerator `RG8Srgb`, following `R8Srgb`. -/
def RG8Srgb : PixelFormat := next R8Srgb

/-- Enumerator `RGB8Srgb`, following `RG8Srgb`. -/
def RGB8Srgb : PixelFormat := next RG8Srgb

/-- Enumerator `RGBA8Srgb`, following `RGB8Srgb`. -/
def RGBA8Srgb : PixelFormat := next RGB8Srgb

/-- Enumerator `R8UI`, following `RGBA8Srgb`. -/
def R8UI : PixelFormat := next RGBA8Srgb

/-- Enumerator `RG8UI`, following `R8UI`. -/
def RG8UI : PixelFormat := next R8UI

/-- Enumerator `RGB8UI`, following `RG8UI`. -/
def RGB8UI : PixelFormat := next RG8UI

/-- Enumerator `RGBA8UI`, following `RGB8UI`. -/
def RGBA8UI : PixelFormat := next RGB8UI

/-- Enumerator `R8I`, following `RGBA8UI`. -/
def R8I : PixelFormat := next RGBA8UI

/-- Enumerator `RG8I`, following `R8I`. -/
def RG8I : PixelFormat := next R8I

/-- Enumerator `RGB8I`, following `RG8I`. -/
def RGB8I : PixelFormat := next RG8I

/-- Enumerator `RGBA8I`, following `RGB8I`. -/
def RGBA8I : PixelFormat := next RGB8I

/-- Enumerator `R16Unorm`, following `RGBA8I`. -/
def R16Unorm : PixelFormat := next RGBA8I

/-- Enumerator `RG16Unorm`, following `R16Unorm`. -/
def RG16Unorm : PixelFormat := next R16Unorm

/-- Enumerator `RGB16Unorm`, following `RG16Unorm`. -/
def RGB16Unorm : PixelFormat := next RG16Unorm

/-- Enumerator `RGBA16Unorm`, following `RGB16Unorm`. -/
def RGBA16Unorm : PixelFormat := next RGB16Unorm

/-- Enumerator `R16Snorm`, following `RGBA16Unorm`. -/
def R16Snorm : PixelFormat := next RGBA16Unorm

/-- Enumerator `RG16Snorm`, following `R16Snorm`. -/
def RG16Snorm : PixelFormat := next R16Snorm

/-- Enumerator `RGB16Snorm`, following `RG16Snorm`. -/
def RGB16Snorm : PixelFormat := next RG16Snorm

/-- Enumerator `RGBA16Snorm`, following `RGB16Snorm`. -/
def RGBA16Snorm : PixelFormat := next RGB16Snorm

/-- Enumerator `R16UI`, following `RGBA16Snorm`. -/
def R16UI : PixelFormat := next RGBA16Snorm

/-- Enumerator `RG16UI`, following `R16UI`. -/
def RG16UI : PixelFormat := next R16UI

/-- Enumerator `RGB16UI`, following `RG16UI`. -/
def RGB16UI : PixelFormat := next RG16UI

/-- Enumerator `RGBA16UI`, following `RGB16UI`. -/
def RGBA16UI : PixelFormat := next RGB16UI

/-- Enumerator `R16I`, following `RGBA16UI`. -/
def R16I : PixelFormat := next RGBA16UI

/-- Enumerator `RG16I`, following `R16I`. -/
def RG16I : PixelFormat := next R16I

/-- Enumerator `RGB16I`, following `RG16I`. -/
def RGB16I : PixelFormat := next RG16I

/-- Enumerator `RGBA16I`, following `RGB16I`. -/
def RGBA16I : PixelFormat := next RGB16I

/-- Enumerator `R32UI`, following `RGBA16I`. -/
def R32UI : PixelFormat := next RGBA16I

/-- Enumerator `RG32UI`, following `R32UI`. -/
def RG32UI : PixelFormat := next R32UI

/-- Enumerator `RGB32UI`, following `RG32UI`. -/
def RGB32UI : PixelFormat := next RG32UI

/-- Enumerator `RGBA32UI`, following `RGB32UI`. -/
def RGBA32UI : PixelFormat := next RGB32UI

/-- Enumerator `R32I`, following `RGBA32UI`. -/
def R32I : PixelFormat := next RGBA32UI

/-- Enumerator `RG32I`, following `R32I`. -/
def RG32I : PixelFormat := next R32I

/-- Enumerator `RGB32I`, following `RG32I`. -/
def RGB32I : PixelFormat := next RG32I

/-- Enumerator `RGBA32I`, following `RGB32I`. -/
def RGBA32I : PixelFormat := next RGB32I

/-- Enumerator `R16F`, following `RGBA32I`. -/
def R16F : PixelFormat := next RGBA32I

/-- Enumerator `RG16F`, following `R16F`. -/
def RG16F : PixelFormat := next R16F

/-- Enumerator `RGB16F`, following `RG16F`. -/
def RGB16F : PixelFormat := next RG16F

/-- Enumerator `RGBA16F`, following `RGB16F`. -/
def RGBA16F : PixelFormat := next RGB16F

/-- Enumerator `R32F`, following `RGBA16F`. -/
def R32F : PixelFormat := next RGBA16F

/-- Enumerator `RG32F`, following `R32F`. -/
def RG32F : PixelFormat := next R32F

/-- Enumerator `RGB32F`, following `RG32F`. -/
def RGB32F : PixelFormat := next RG32F

/-- Enumerator `RGBA32F`, following `RGB32F`. -/
def RGBA32F : PixelFormat := next RGB32F

/-- All named enumerators of `PixelFormat`, in declaration order. -/
def namedConstants : List PixelFormat :=
  [R8Unorm, RG8Unorm, RGB8Unorm, RGBA8Unorm,
   R8Snorm, RG8Snorm, RGB8Snorm, RGBA8Snorm,
   R8Srgb, RG8Srgb, RGB8Srgb, RGBA8Srgb,
   R8UI, RG8UI, RGB8UI, RGBA8UI,
   R8I, RG8I, RGB8I, RGBA8I,
   R16Unorm, RG16Unorm, RGB16Unorm, RGBA16Unorm,
   R16Snorm, RG16Snorm, RGB16Snorm, RGBA16Snorm,
   R16UI, RG16UI, RGB16UI, RGBA16UI,
   R16I, RG16I, RGB16I, RGBA16I,
   R32UI, RG32UI, RGB32UI, RGBA32UI,
   R32I, RG32I, RGB32I, RGBA32I,
   R16F, RG16F, RGB16F, RGBA16F,
   R32F, RG32F, RGB32F, RGBA32F]

end PixelFormat

/-! ## The compressed identifier type -/

/-- The enumeration `enum class CompressedPixelFormat: UnsignedInt`: any 32-bit
unsigned value. -/
structure CompressedPixelFormat where
  /-- The underlying value `UnsignedInt(format)`. -/
  value : Nat
  /-- The underlying type has 32 bits. -/
  isLt : value < 2 ^ 32
deriving DecidableEq, Repr

namespace CompressedPixelFormat

/-- The explicit conversion `CompressedPixelFormat(x)` from an `UnsignedInt`. -/
def ofUnsignedInt (x : Nat) : CompressedPixelFormat :=
  ⟨x % 2 ^ 32, Nat.mod_lt x (by decide)⟩

/-- An enumerator without an initializer has the value of the previous one
plus one. -/
def next (previous : CompressedPixelFormat) : CompressedPixelFormat :=
  ofUnsignedInt (previous.value + 1)

/-! ### The named enumerators of `CompressedPixelFormat`, in declaration order

Zero is reserved for an invalid format and is not a named value. -/

/-- Enumerator `Bc1RGBUnorm = 1`. -/
def Bc1RGBUnorm : CompressedPixelFormat := ofUnsignedInt 1

/-- Enumerator `Bc1RGBSrgb`, following `Bc1RGBUnorm`. -/
def Bc1RGBSrgb : CompressedPixelFormat := next Bc1RGBUnorm

/-- Enumerator `Bc1RGBAUnorm`, following `Bc1RGBSrgb`. -/
def Bc1RGBAUnorm : CompressedPixelFormat := next Bc1RGBSrgb

/-- Enumerator `Bc1RGBASrgb`, following `Bc1RGBAUnorm`. -/
def Bc1RGBASrgb : CompressedPixelFormat := next Bc1RGBAUnorm

/-- Enumerator `Bc2RGBAUnorm`, following `Bc1RGBASrgb`. -/
def Bc2RGBAUnorm : CompressedPixelFormat := next Bc1RGBASrgb

/-- Enumerator `Bc2RGBASrgb`, following `Bc2RGBAUnorm`. -/
def Bc2RGBASrgb : CompressedPixelFormat := next Bc2RGBAUnorm

/-- Enumerator `Bc3RGBAUnorm`, following `Bc2RGBASrgb`. -/
def Bc3RGBAUnorm : CompressedPixelFormat := next Bc2RGBASrgb

/-- Enumerator `Bc3RGBASrgb`, following `Bc3RGBAUnorm`. -/
def Bc3RGBASrgb : CompressedPixelFormat := next Bc3RGBAUnorm

/-- Enumerator `Bc4RUnorm`, following `Bc3RGBASrgb`. -/
def Bc4RUnorm : CompressedPixelFormat := next Bc3RGBASrgb

/-- Enumerator `Bc4RSnorm`, following `Bc4RUnorm`. -/
def Bc4RSnorm : CompressedPixelFormat := next Bc4RUnorm

/-- Enumerator `Bc5RGUnorm`, following `Bc4RSnorm`. -/
def Bc5RGUnorm : CompressedPixelFormat := next Bc4RSnorm

/-- Enumerator `Bc5RGSnorm`, following `Bc5RGUnorm`. -/
def Bc5RGSnorm : CompressedPixelFormat := next Bc5RGUnorm

/-- Enumerator `Bc6hRGBUfloat`, following `Bc5RGSnorm`. -/
def Bc6hRGBUfloat : CompressedPixelFormat := next Bc5RGSnorm

/-- Enumerator `Bc6hRGBSfloat`, following `Bc6hRGBUfloat`. -/
def Bc6hRGBSfloat : CompressedPixelFormat := next Bc6hRGBUfloat

/-- Enumerator `Bc7RGBAUnorm`, following `Bc6hRGBSfloat`. -/
def Bc7RGBAUnorm : CompressedPixelFormat := next Bc6hRGBSfloat

/-- Enumerator `Bc7RGBASrgb`, following `Bc7RGBAUnorm`. -/
def Bc7RGBASrgb : CompressedPixelFormat := next Bc7RGBAUnorm

/-- Enumerator `EacR11Unorm`, following `Bc7RGBASrgb`. -/
def EacR11Unorm : CompressedPixelFormat := next Bc7RGBASrgb

/-- Enumerator `EacR11Snorm`, following `EacR11Unorm`. -/
def EacR11Snorm : CompressedPixelFormat := next EacR11Unorm

/-- Enumerator `EacRG11Unorm`, following `EacR11Snorm`. -/
def EacRG11Unorm : CompressedPixelFormat := next EacR11Snorm

/-- Enumerator `EacRG11Snorm`, following `EacRG11Unorm`. -/
def EacRG11Snorm : CompressedPixelFormat := next EacRG11Unorm

/-- Enumerator `Etc2RGB8Unorm`, following `EacRG11Snorm`. -/
def Etc2RGB8Unorm : CompressedPixelFormat := next EacRG11Snorm

/-- Enumerator `Etc2RGB8Srgb`, following `Etc2RGB8Unorm`. -/
def Etc2RGB8Srgb : CompressedPixelFormat := next Etc2RGB8Unorm

/-- Enumerator `Etc2RGB8A1Unorm`, following `Etc2RGB8Srgb`. -/
def Etc2RGB8A1Unorm : CompressedPixelFormat := next Etc2RGB8Srgb

/-- Enumerator `Etc2RGB8A1Srgb`, following `Etc2RGB8A1Unorm`. -/
def Etc2RGB8A1Srgb : CompressedPixelFormat := next Etc2RGB8A1Unorm

/-- Enumerator `Etc2RGBA8Unorm`, following `Etc2RGB8A1Srgb`. -/
def Etc2RGBA8Unorm : CompressedPixelFormat := next Etc2RGB8A1Srgb

/-- Enumerator `Etc2RGBA8Srgb`, following `Etc2RGBA8Unorm`. -/
def Etc2RGBA8Srgb : CompressedPixelFormat := next Etc2RGBA8Unorm

/-- Enumerator `Astc4x4RGBAUnorm`, following `Etc2RGBA8Srgb`. -/
def Astc4x4RGBAUnorm : CompressedPixelFormat := next Etc2RGBA8Srgb

/-- Enumerator `Astc4x4RGBASrgb`, following `Astc4x4RGBAUnorm`. -/
def Astc4x4RGBASrgb : CompressedPixelFormat := next Astc4x4RGBAUnorm

/-- Enumerator `Astc5x4RGBAUnorm`, following `Astc4x4RGBASrgb`. -/
def Astc5x4RGBAUnorm : CompressedPixelFormat := next Astc4x4RGBASrgb

/-- Enumerator `Astc5x4RGBASrgb`, following `Astc5x4RGBAUnorm`. -/
def Astc5x4RGBASrgb : CompressedPixelFormat := next Astc5x4RGBAUnorm

/-- Enumerator `Astc5x5RGBAUnorm`, following `Astc5x4RGBASrgb`. -/
def Astc5x5RGBAUnorm : CompressedPixelFormat := next Astc5x4RGBASrgb

/-- Enumerator `Astc5x5RGBASrgb`, following `Astc5x5RGBAUnorm`. -/
def Astc5x5RGBASrgb : CompressedPixelFormat := next Astc5x5RGBAUnorm

/-- Enumerator `Astc6x5RGBAUnorm`, following `Astc5x5RGBASrgb`. -/
def Astc6x5RGBAUnorm : CompressedPixelFormat := next Astc5x5RGBASrgb

/-- Enumerator `Astc6x5RGBASrgb`, following `Astc6x5RGBAUnorm`. -/
def Astc6x5RGBASrgb : CompressedPixelFormat := next Astc6x5RGBAUnorm

/-- Enumerator `Astc6x6RGBAUnorm`, following `Astc6x5RGBASrgb`. -/
def Astc6x6RGBAUnorm : CompressedPixelFormat := next Astc6x5RGBASrgb

/-- Enumerator `Astc6x6RGBASrgb`, following `Astc6x6RGBAUnorm`. -/
def Astc6x6RGBASrgb : CompressedPixelFormat := next Astc6x6RGBAUnorm

/-- Enumerator `Astc8x5RGBAUnorm`, following `Astc6x6RGBASrgb`. -/
def Astc8x5RGBAUnorm : CompressedPixelFormat := next Astc6x6RGBASrgb

/-- Enumerator `Astc8x5RGBASrgb`, following `Astc8x5RGBAUnorm`. -/
def Astc8x5RGBASrgb : CompressedPixelFormat := next Astc8x5RGBAUnorm

/-- Enumerator `Astc8x6RGBAUnorm`, following `Astc8x5RGBASrgb`. -/
def Astc8x6RGBAUnorm : CompressedPixelFormat := next Astc8x5RGBASrgb

/-- Enumerator `Astc8x6RGBASrgb`, following `Astc8x6RGBAUnorm`. -/
def Astc8x6RGBASrgb : CompressedPixelFormat := next Astc8x6RGBAUnorm

/-- Enumerator `Astc8x8RGBAUnorm`, following `Astc8x6RGBASrgb`. -/
def Astc8x8RGBAUnorm : CompressedPixelFormat := next Astc8x6RGBASrgb

/-- Enumerator `Astc8x8RGBASrgb`, following `Astc8x8RGBAUnorm`. -/
def Astc8x8RGBASrgb : CompressedPixelFormat := next Astc8x8RGBAUnorm

/-- Enumerator `Astc10x5RGBAUnorm`, following `Astc8x8RGBASrgb`. -/
def Astc10x5RGBAUnorm : CompressedPixelFormat := next Astc8x8RGBASrgb

/-- Enumerator `Astc10x5RGBASrgb`, following `Astc10x5RGBAUnorm`. -/
def Astc10x5RGBASrgb : CompressedPixelFormat := next Astc10x5RGBAUnorm

/-- Enumerator `Astc10x6RGBAUnorm`, following `Astc10x5RGBASrgb`. -/
def Astc10x6RGBAUnorm : CompressedPixelFormat := next Astc10x5RGBASrgb

/-- Enumerator `Astc10x6RGBASrgb`, following `Astc10x6RGBAUnorm`. -/
def Astc10x6RGBASrgb : CompressedPixelFormat := next Astc10x6RGBAUnorm

/-- Enumerator `Astc10x8RGBAUnorm`, following `Astc10x6RGBASrgb`. -/
def Astc10x8RGBAUnorm : CompressedPixelFormat := next Astc10x6RGBASrgb

/-- Enumerator `Astc10x8RGBASrgb`, following `Astc10x8RGBAUnorm`. -/
def Astc10x8RGBASrgb : CompressedPixelFormat := next Astc10x8RGBAUnorm

/-- Enumerator `Astc10x10RGBAUnorm`, following `Astc10x8RGBASrgb`. -/
def Astc10x10RGBAUnorm : CompressedPixelFormat := next Astc10x8RGBASrgb

/-- Enumerator `Astc10x10RGBASrgb`, following `Astc10x10RGBAUnorm`. -/
def Astc10x10RGBASrgb : CompressedPixelFormat := next Astc10x10RGBAUnorm

/-- Enumerator `Astc12x10RGBAUnorm`, following `Astc10x10RGBASrgb`. -/
def Astc12x10RGBAUnorm : CompressedPixelFormat := next Astc10x10RGBASrgb

/-- Enumerator `Astc12x10RGBASrgb`, following `Astc12x10RGBAUnorm`. -/
def Astc12x10RGBASrgb : CompressedPixelFormat := next Astc12x10RGBAUnorm

/-- Enumerator `Astc12x12RGBAUnorm`, following `Astc12x10RGBASrgb`. -/
def Astc12x12RGBAUnorm : CompressedPixelFormat := next Astc12x10RGBASrgb

/-- Enumerator `Astc12x12RGBASrgb`, following `Astc12x12RGBAUnorm`. -/
def Astc12x12RGBASrgb : CompressedPixelFormat := next Astc12x12RGBAUnorm

/-- Enumerator `PvrtcRGB2bppUnorm`, following `Astc12x12RGBASrgb`. -/
def PvrtcRGB2bppUnorm : CompressedPixelFormat := next Astc12x12RGBASrgb

/-- Enumerator `PvrtcRGB2bppSrgb`, following `PvrtcRGB2bppUnorm`. -/
def PvrtcRGB2bppSrgb : CompressedPixelFormat := next PvrtcRGB2bppUnorm

/-- Enumerator `PvrtcRGBA2bppUnorm`, following `PvrtcRGB2bppSrgb`. -/
def PvrtcRGBA2bppUnorm : CompressedPixelFormat := next PvrtcRGB2bppSrgb

/-- Enumerator `PvrtcRGBA2bppSrgb`, following `PvrtcRGBA2bppUnorm`. -/
def PvrtcRGBA2bppSrgb : CompressedPixelFormat := next PvrtcRGBA2bppUnorm

/-- Enumerator `PvrtcRGB4bppUnorm`, following `PvrtcRGBA2bppSrgb`. -/
def PvrtcRGB4bppUnorm : CompressedPixelFormat := next PvrtcRGBA2bppSrgb

/-- Enumerator `PvrtcRGB4bppSrgb`, following `PvrtcRGB4bppUnorm`. -/
def PvrtcRGB4bppSrgb : CompressedPixelFormat := next PvrtcRGB4bppUnorm

/-- Enumerator `PvrtcRGBA4bppUnorm`, following `PvrtcRGB4bppSrgb`. -/
def PvrtcRGBA4bppUnorm : CompressedPixelFormat := next PvrtcRGB4bppSrgb

/-- Enumerator `PvrtcRGBA4bppSrgb`, following `PvrtcRGBA4bppUnorm`. -/
def PvrtcRGBA4bppSrgb : CompressedPixelFormat := next PvrtcRGBA4bppUnorm

/-- All named enumerators of `CompressedPixelFormat`, in declaration order. -/
def namedConstants : List CompressedPixelFormat :=
  [Bc1RGBUnorm, Bc1RGBSrgb, Bc1RGBAUnorm, Bc1RGBASrgb,
   Bc2RGBAUnorm, Bc2RGBASrgb, Bc3RGBAUnorm, Bc3RGBASrgb,
   Bc4RUnorm, Bc4RSnorm, Bc5RGUnorm, Bc5RGSnorm,
   Bc6hRGBUfloat, Bc6hRGBSfloat, Bc7RGBAUnorm, Bc7RGBASrgb,
   EacR11Unorm, EacR11Snorm, EacRG11Unorm, EacRG11Snorm,
   Etc2RGB8Unorm, Etc2RGB8Srgb, Etc2RGB8A1Unorm, Etc2RGB8A1Srgb,
   Etc2RGBA8Unorm, Etc2RGBA8Srgb, Astc4x4RGBAUnorm, Astc4x4RGBASrgb,
   Astc5x4RGBAUnorm, Astc5x4RGBASrgb, Astc5x5RGBAUnorm, Astc5x5RGBASrgb,
   Astc6x5RGBAUnorm, Astc6x5RGBASrgb, Astc6x6RGBAUnorm, Astc6x6RGBASrgb,
   Astc8x5RGBAUnorm, Astc8x5RGBASrgb, Astc8x6RGBAUnorm, Astc8x6RGBASrgb,
   Astc8x8RGBAUnorm, Astc8x8RGBASrgb, Astc10x5RGBAUnorm, Astc10x5RGBASrgb,
   Astc10x6RGBAUnorm, Astc10x6RGBASrgb, Astc10x8RGBAUnorm, Astc10x8RGBASrgb,
   Astc10x10RGBAUnorm, Astc10x10RGBASrgb, Astc12x10RGBAUnorm, Astc12x10RGBASrgb,
   Astc12x12RGBAUnorm, Astc12x12RGBASrgb, PvrtcRGB2bppUnorm, PvrtcRGB2bppSrgb,
   PvrtcRGBA2bppUnorm, PvrtcRGBA2bppSrgb, PvrtcRGB4bppUnorm, PvrtcRGB4bppSrgb,
   PvrtcRGBA4bppUnorm, PvrtcRGBA4bppSrgb]

/-- The Vulkan keyword named in the documentation comment of each enumerator
(the first argument of its `@def_vk_keyword`), in declaration order. -/
def documentedVkKeyword : List (CompressedPixelFormat × String) :=
  [(Bc1RGBUnorm, "FORMAT_BC1_RGB_UNORM_BLOCK"),
   (Bc1RGBSrgb, "FORMAT_BC1_RGB_SRGB_BLOCK"),
   (Bc1RGBAUnorm, "FORMAT_BC1_RGBA_UNORM_BLOCK"),
   (Bc1RGBASrgb, "FORMAT_BC1_RGBA_SRGB_BLOCK"),
   (Bc2RGBAUnorm, "FORMAT_BC2_UNORM_BLOCK"),
   (Bc2RGBASrgb, "FORMAT_BC2_SRGB_BLOCK"),
   (Bc3RGBAUnorm, "FORMAT_BC3_UNORM_BLOCK"),
   (Bc3RGBASrgb, "FORMAT_BC3_SRGB_BLOCK"),
   (Bc4RUnorm, "FORMAT_BC4_UNORM_BLOCK"),
   (Bc4RSnorm, "FORMAT_BC4_SNORM_BLOCK"),
   (Bc5RGUnorm, "FORMAT_BC5_UNORM_BLOCK"),
   (Bc5RGSnorm, "FORMAT_BC5_SNORM_BLOCK"),
   (Bc6hRGBUfloat, "FORMAT_BC6H_UFLOAT_BLOCK"),
   (Bc6hRGBSfloat, "FORMAT_BC6H_SFLOAT_BLOCK"),
   (Bc7RGBAUnorm, "FORMAT_BC7_UNORM_BLOCK"),
   (Bc7RGBASrgb, "FORMAT_BC7_SRGB_BLOCK"),
   (EacR11Unorm, "FORMAT_EAC_R11_UNORM_BLOCK"),
   (EacR11Snorm, "FORMAT_EAC_R11_SNORM_BLOCK"),
   (EacRG11Unorm, "FORMAT_EAC_R11G11_UNORM_BLOCK"),
   (EacRG11Snorm, "FORMAT_EAC_R11G11_SNORM_BLOCK"),
   (Etc2RGB8Unorm, "FORMAT_ETC2_R8G8B8_UNORM_BLOCK"),
   (Etc2RGB8Srgb, "FORMAT_ETC2_R8G8B8_SRGB_BLOCK"),
   (Etc2RGB8A1Unorm, "FORMAT_ETC2_R8G8B8A1_UNORM_BLOCK"),
   (Etc2RGB8A1Srgb, "FORMAT_ETC2_R8G8B8A1_SRGB_BLOCK"),
   (Etc2RGBA8Unorm, "FORMAT_ETC2_R8G8B8A8_UNORM_BLOCK"),
   (Etc2RGBA8Srgb, "FORMAT_ETC2_R8G8B8A8_SRGB_BLOCK"),
   (Astc4x4RGBAUnorm, "FORMAT_ASTC_4x4_UNORM_BLOCK"),
   (Astc4x4RGBASrgb, "FORMAT_ASTC_4x4_SRGB_BLOCK"),
   (Astc5x4RGBAUnorm, "FORMAT_ASTC_5x4_UNORM_BLOCK"),
   (Astc5x4RGBASrgb, "FORMAT_ASTC_5x4_SRGB_BLOCK"),
   (Astc5x5RGBAUnorm, "FORMAT_ASTC_5x5_UNORM_BLOCK"),
   (Astc5x5RGBASrgb, "FORMAT_ASTC_5x5_SRGB_BLOCK"),
   (Astc6x5RGBAUnorm, "FORMAT_ASTC_6x5_UNORM_BLOCK"),
   (Astc6x5RGBASrgb, "FORMAT_ASTC_6x5_SRGB_BLOCK"),
   (Astc6x6RGBAUnorm, "FORMAT_ASTC_6x6_UNORM_BLOCK"),
   (Astc6x6RGBASrgb, "FORMAT_ASTC_6x6_SRGB_BLOCK"),
   (Astc8x5RGBAUnorm, "FORMAT_ASTC_8x5_UNORM_BLOCK"),
   (Astc8x5RGBASrgb, "FORMAT_ASTC_8x5_SRGB_BLOCK"),
   (Astc8x6RGBAUnorm, "FORMAT_ASTC_8x6_UNORM_BLOCK"),
   (Astc8x6RGBASrgb, "FORMAT_ASTC_8x6_SRGB_BLOCK"),
   (Astc8x8RGBAUnorm, "FORMAT_ASTC_8x8_UNORM_BLOCK"),
   (Astc8x8RGBASrgb, "FORMAT_ASTC_8x8_SRGB_BLOCK"),
   (Astc10x5RGBAUnorm, "FORMAT_ASTC_10x5_UNORM_BLOCK"),
   (Astc10x5RGBASrgb, "FORMAT_ASTC_10x5_SRGB_BLOCK"),
   (Astc10x6RGBAUnorm, "FORMAT_ASTC_10x6_UNORM_BLOCK"),
   (Astc10x6RGBASrgb, "FORMAT_ASTC_10x6_SRGB_BLOCK"),
   (Astc10x8RGBAUnorm, "FORMAT_ASTC_10x8_UNORM_BLOCK"),
   (Astc10x8RGBASrgb, "FORMAT_ASTC_10x8_SRGB_BLOCK"),
   (Astc10x10RGBAUnorm, "FORMAT_ASTC_10x10_UNORM_BLOCK"),
   (Astc10x10RGBASrgb, "FORMAT_ASTC_10x10_SRGB_BLOCK"),
   (Astc12x10RGBAUnorm, "FORMAT_ASTC_12x10_UNORM_BLOCK"),
   (Astc12x10RGBASrgb, "FORMAT_ASTC_12x10_SRGB_BLOCK"),
   (Astc12x12RGBAUnorm, "FORMAT_ASTC_12x12_UNORM_BLOCK"),
   (Astc12x12RGBASrgb, "FORMAT_ASTC_12x12_SRGB_BLOCK"),
   (PvrtcRGB2bppUnorm, "FORMAT_PVRTC1_2BPP_UNORM_BLOCK_IMG"),
   (PvrtcRGB2bppSrgb, "FORMAT_PVRTC1_2BPP_SRGB_BLOCK_IMG"),
   (PvrtcRGBA2bppUnorm, "FORMAT_PVRTC1_2BPP_UNORM_BLOCK_IMG"),
   (PvrtcRGBA2bppSrgb, "FORMAT_PVRTC1_2BPP_SRGB_BLOCK_IMG"),
   (PvrtcRGB4bppUnorm, "FORMAT_PVRTC1_4BPP_UNORM_BLOCK_IMG"),
   (PvrtcRGB4bppSrgb, "FORMAT_PVRTC1_4BPP_SRGB_BLOCK_IMG"),
   (PvrtcRGBA4bppUnorm, "FORMAT_PVRTC1_4BPP_UNORM_BLOCK_IMG"),
   (PvrtcRGBA4bppSrgb, "FORMAT_PVRTC1_4BPP_SRGB_BLOCK_IMG")]

end CompressedPixelFormat

/-! ## The codec -/

/-- Whether a `PixelFormat` value wraps an implementation-specific identifier:
`return UnsignedInt(format) & (1u << 31);`, converted to `bool`. -/
def isPixelFormatImplementationSpecific (format : PixelFormat) : Bool :=
  format.value &&& (1 <<< 31) != 0

/-- Wrap an implementation-specific pixel format identifier in a `PixelFormat`.
The template argument `T` is the type of `implementationSpecific`. -/
def pixelFormatWrap (T : IntegralType) (implementationSpecific : Int) :
    Except Failure PixelFormat :=
  if T.size ≤ 4 then
    constexprAssert (!(toUnsignedInt implementationSpecific &&& (1 <<< 31) != 0))
      "pixelFormatWrap(): implementation-specific value already wrapped or too large"
      (PixelFormat.ofUnsignedInt ((1 <<< 31) ||| toUnsignedInt implementationSpecific))
  else
    .error (.staticAssert "format types larger than 32bits are not supported")

/-- Unwrap an implementation-specific pixel format identifier from a
`PixelFormat`.  The template argument `T` is the result type (`UnsignedInt` when
left out in the source). -/
def pixelFormatUnwrap (T : IntegralType) (format : PixelFormat) : Except Failure Int :=
  constexprAssert (format.value &&& (1 <<< 31) != 0)
    "pixelFormatUnwrap(): format doesn't contain a wrapped implementation-specific value"
    (T.convert ((format.value &&& complement (1 <<< 31) : Nat) : Int))

/-- Whether a `CompressedPixelFormat` value wraps an implementation-specific
identifier: `return UnsignedInt(format) & (1u << 31);`, converted to `bool`. -/
def isCompressedPixelFormatImplementationSpecific (format : CompressedPixelFormat) : Bool :=
  format.value &&& (1 <<< 31) != 0

/-- Wrap an implementation-specific pixel format identifier in a
`CompressedPixelFormat`.  The template argument `T` is the type of
`implementationSpecific`. -/
def compressedPixelFormatWrap (T : IntegralType) (implementationSpecific : Int) :
    Except Failure CompressedPixelFormat :=
  if T.size ≤ 4 then
    constexprAssert (!(toUnsignedInt implementationSpecific &&& (1 <<< 31) != 0))
      "compressedPixelFormatWrap(): implementation-specific value already wrapped or too large"
      (CompressedPixelFormat.ofUnsignedInt ((1 <<< 31) ||| toUnsignedInt implementationSpecific))
  else
    .error (.staticAssert "format types larger than 32bits are not supported")

/-- Unwrap an implementation-specific pixel format identifier from a
`CompressedPixelFormat`.  The template argument `T` is the result type
(`UnsignedInt` when left out in the source). -/
def compressedPixelFormatUnwrap (T : IntegralType) (format : CompressedPixelFormat) :
    Except Failure Int :=
  constexprAssert (format.value &&& (1 <<< 31) != 0)
    "compressedPixelFormatUnwrap(): format doesn't contain a wrapped implementation-specific value"
    (T.convert ((format.value &&& complement (1 <<< 31) : Nat) : Int))

/-! ## The Vulkan mapping of the compressed formats -/

namespace Vk.Implementation

/-- Modelled from the spec: the macro `_c` is defined by the files that include
the table (`Magnum/Vk/Enums.cpp`, `Magnum/Vk/Test/EnumsTest.cpp`), which are not
part of the sources.  An entry `_c(input, format)` associates the enumerator
`CompressedPixelFormat::input` with the native token named `format`. -/
def _c (input : CompressedPixelFormat) (format : String) : CompressedPixelFormat × String :=
  (input, format)

open CompressedPixelFormat in
/-- The entries of `Magnum/Vk/Implementation/compressedFormatMapping.hpp`, in the
order of the file. -/
def compressedFormatMapping : List (CompressedPixelFormat × String) :=
  [_c Bc1RGBUnorm "BC1_RGB_UNORM_BLOCK",
   _c Bc1RGBSrgb "BC1_RGB_SRGB_BLOCK",
   _c Bc1RGBAUnorm "BC1_RGBA_UNORM_BLOCK",
   _c Bc1RGBASrgb "BC1_RGBA_SRGB_BLOCK",
   _c Bc2RGBAUnorm "BC2_UNORM_BLOCK",
   _c Bc2RGBASrgb "BC2_SRGB_BLOCK",
   _c Bc3RGBAUnorm "BC3_UNORM_BLOCK",
   _c Bc3RGBASrgb "BC3_SRGB_BLOCK",
   _c Bc4RUnorm "BC4_UNORM_BLOCK",
   _c Bc4RSnorm "BC4_SNORM_BLOCK",
   _c Bc5RGUnorm "BC5_UNORM_BLOCK",
   _c Bc5RGSnorm "BC5_SNORM_BLOCK",
   _c Bc6hRGBUfloat "BC6H_UFLOAT_BLOCK",
   _c Bc6hRGBSfloat "BC6H_SFLOAT_BLOCK",
   _c Bc7RGBAUnorm "BC7_UNORM_BLOCK",
   _c Bc7RGBASrgb "BC7_SRGB_BLOCK",
   _c EacR11Unorm "EAC_R11_UNORM_BLOCK",
   _c EacR11Snorm "EAC_R11_SNORM_BLOCK",
   _c EacRG11Unorm "EAC_R11G11_UNORM_BLOCK",
   _c EacRG11Snorm "EAC_R11G11_SNORM_BLOCK",
   _c Etc2RGB8Unorm "ETC2_R8G8B8_UNORM_BLOCK",
   _c Etc2RGB8Srgb "ETC2_R8G8B8_SRGB_BLOCK",
   _c Etc2RGB8A1Unorm "ETC2_R8G8B8A1_UNORM_BLOCK",
   _c Etc2RGB8A1Srgb "ETC2_R8G8B8A1_SRGB_BLOCK",
   _c Etc2RGBA8Unorm "ETC2_R8G8B8A8_UNORM_BLOCK",
   _c Etc2RGBA8Srgb "ETC2_R8G8B8A8_SRGB_BLOCK",
   _c Astc4x4RGBAUnorm "ASTC_4x4_UNORM_BLOCK",
   _c Astc4x4RGBASrgb "ASTC_4x4_SRGB_BLOCK",
   _c Astc5x4RGBAUnorm "ASTC_5x4_UNORM_BLOCK",
   _c Astc5x4RGBASrgb "ASTC_5x4_SRGB_BLOCK",
   _c Astc5x5RGBAUnorm "ASTC_5x5_UNORM_BLOCK",
   _c Astc5x5RGBASrgb "ASTC_5x5_SRGB_BLOCK",
   _c Astc6x5RGBAUnorm "ASTC_6x5_UNORM_BLOCK",
   _c Astc6x5RGBASrgb "ASTC_6x5_SRGB_BLOCK",
   _c Astc6x6RGBAUnorm "ASTC_6x6_UNORM_BLOCK",
   _c Astc6x6RGBASrgb "ASTC_6x6_SRGB_BLOCK",
   _c Astc8x5RGBAUnorm "ASTC_8x5_UNORM_BLOCK",
   _c Astc8x5RGBASrgb "ASTC_8x5_SRGB_BLOCK",
   _c Astc8x6RGBAUnorm "ASTC_8x6_UNORM_BLOCK",
   _c Astc8x6RGBASrgb "ASTC_8x6_SRGB_BLOCK",
   _c Astc8x8RGBAUnorm "ASTC_8x8_UNORM_BLOCK",
   _c Astc8x8RGBASrgb "ASTC_8x8_SRGB_BLOCK",
   _c Astc10x5RGBAUnorm "ASTC_10x5_UNORM_BLOCK",
   _c Astc10x5RGBASrgb "ASTC_10x5_SRGB_BLOCK",
   _c Astc10x6RGBAUnorm "ASTC_10x6_UNORM_BLOCK",
   _c Astc10x6RGBASrgb "ASTC_10x6_SRGB_BLOCK",
   _c Astc10x8RGBAUnorm "ASTC_10x8_UNORM_BLOCK",
   _c Astc10x8RGBASrgb "ASTC_10x8_SRGB_BLOCK",
   _c Astc10x10RGBAUnorm "ASTC_10x10_UNORM_BLOCK",
   _c Astc10x10RGBASrgb "ASTC_10x10_SRGB_BLOCK",
   _c Astc12x10RGBAUnorm "ASTC_12x10_UNORM_BLOCK",
   _c Astc12x10RGBASrgb "ASTC_12x10_SRGB_BLOCK",
   _c Astc12x12RGBAUnorm "ASTC_12x12_UNORM_BLOCK",
   _c Astc12x12RGBASrgb "ASTC_12x12_SRGB_BLOCK",
   _c PvrtcRGB2bppUnorm "PVRTC1_2BPP_UNORM_BLOCK_IMG",
   _c PvrtcRGB2bppSrgb "PVRTC1_2BPP_SRGB_BLOCK_IMG",
   _c PvrtcRGBA2bppUnorm "PVRTC1_2BPP_UNORM_BLOCK_IMG",
   _c PvrtcRGBA2bppSrgb "PVRTC1_2BPP_SRGB_BLOCK_IMG",
   _c PvrtcRGB4bppUnorm "PVRTC1_4BPP_UNORM_BLOCK_IMG",
   _c PvrtcRGB4bppSrgb "PVRTC1_4BPP_SRGB_BLOCK_IMG",
   _c PvrtcRGBA4bppUnorm "PVRTC1_4BPP_UNORM_BLOCK_IMG",
   _c PvrtcRGBA4bppSrgb "PVRTC1_4BPP_SRGB_BLOCK_IMG"]

end Vk.Implementation

/-! ## Signed argument types -/

/-- Modelled from the spec: the typedef `Byte` of `Magnum/Magnum.h`, an 8-bit signed
integer. -/
def Byte : IntegralType := ⟨1, true⟩

/-- Modelled from the spec: the typedef `Short` of `Magnum/Magnum.h`, a 16-bit
signed integer. -/
def Short : IntegralType := ⟨2, true⟩

/-- Modelled from the spec: the typedef `Int` of `Magnum/Magnum.h`, a 32-bit signed
integer (named `SignedInt` here, `Int` being the integers). -/
def SignedInt : IntegralType := ⟨4, true⟩

/-- Whether the integer `x` is a value of the type `T`: between `-2 ^ (bits - 1)`
and `2 ^ (bits - 1) - 1` for a signed type, between `0` and `2 ^ bits - 1` for an
unsigned one. -/
def IntegralType.contains (T : IntegralType) (x : Int) : Bool :=
  if T.isSigned then decide (-(2 ^ (T.bits - 1)) ≤ x) && decide (x < 2 ^ (T.bits - 1))
  else decide (0 ≤ x) && decide (x < 2 ^ T.bits)

/-! ## Arithmetic of the tag bit -/

theorem testBit_highBit_iff {n : Nat} (h : n < 2 ^ 32) :
    n.testBit 31 = true ↔ 2 ^ 31 ≤ n := by
  constructor
  · intro hb
    exact Nat.testBit_implies_ge hb
  · intro hn
    rw [Nat.testBit_to_div_mod, decide_eq_true_eq]
    omega

theorem and_highBit (n : Nat) :
    n &&& (1 <<< 31) = if n.testBit 31 = true then 2 ^ 31 else 0 := by
  rw [Nat.one_shiftLeft]
  apply Nat.eq_of_testBit_eq
  intro i
  rw [Nat.testBit_and, Nat.testBit_two_pow]
  cases hb : n.testBit 31
  · by_cases hi : 31 = i
    · subst hi
      simp [hb]
    · simp [hi]
  · rw [if_pos rfl, Nat.testBit_two_pow]
    by_cases hi : 31 = i
    · subst hi
      simp [hb]
    · simp [hi]

theorem and_highBit_ne_zero (n : Nat) :
    (n &&& (1 <<< 31) != 0) = n.testBit 31 := by
  rw [and_highBit]
  cases hb : n.testBit 31 <;> simp

theorem complement_highBit : complement (1 <<< 31) = 2 ^ 31 - 1 := by
  decide

theorem and_complement_highBit (n : Nat) :
    n &&& complement (1 <<< 31) = n % 2 ^ 31 := by
  rw [complement_highBit, Nat.and_pow_two_sub_one_eq_mod]

theorem highBit_or {v : Nat} (h : v < 2 ^ 31) : (1 <<< 31) ||| v = 2 ^ 31 + v := by
  rw [Nat.one_shiftLeft]
  have := Nat.mul_add_lt_is_or h 1
  rw [Nat.mul_one] at this
  exact this.symm

theorem toUnsignedInt_lt (x : Int) : toUnsignedInt x < 2 ^ 32 := by
  unfold toUnsignedInt IntegralType.convert UnsignedInt IntegralType.bits
  simp only [Bool.false_and, Bool.false_eq_true, if_false]
  omega

theorem toUnsignedInt_natCast {v : Nat} (h : v < 2 ^ 32) : toUnsignedInt (v : Int) = v := by
  unfold toUnsignedInt IntegralType.convert UnsignedInt IntegralType.bits
  simp only [Bool.false_and, Bool.false_eq_true, if_false]
  omega

theorem convert_UnsignedInt_natCast {v : Nat} (h : v < 2 ^ 32) :
    UnsignedInt.convert (v : Int) = (v : Int) := by
  unfold IntegralType.convert UnsignedInt IntegralType.bits
  simp only [Bool.false_and, Bool.false_eq_true, if_false]
  omega

theorem PixelFormat.ext_value {f g : PixelFormat} (h : f.value = g.value) : f = g := by
  cases f
  cases g
  cases h
  rfl

theorem PixelFormat.ofUnsignedInt_value (f : PixelFormat) :
    PixelFormat.ofUnsignedInt f.value = f :=
  PixelFormat.ext_value (Nat.mod_eq_of_lt f.isLt)

/-! ## Normal forms of the codec -/

theorem pixelFormatWrap_eq_ok {T : IntegralType} (hT : T.size ≤ 4) {x : Int}
    (hx : (toUnsignedInt x).testBit 31 = false) :
    pixelFormatWrap T x = .ok (PixelFormat.ofUnsignedInt ((1 <<< 31) ||| toUnsignedInt x)) := by
  unfold pixelFormatWrap constexprAssert
  rw [if_pos hT, and_highBit_ne_zero, hx]
  rfl

theorem pixelFormatWrap_eq_error {T : IntegralType} (hT : T.size ≤ 4) {x : Int}
    (hx : (toUnsignedInt x).testBit 31 = true) :
    pixelFormatWrap T x = .error (.assertion
      "pixelFormatWrap(): implementation-specific value already wrapped or too large") := by
  unfold pixelFormatWrap constexprAssert
  rw [if_pos hT, and_highBit_ne_zero, hx]
  rfl

theorem pixelFormatWrap_natCast {v : Nat} (h : v < 2 ^ 31) :
    pixelFormatWrap UnsignedInt (v : Int) = .ok (PixelFormat.ofUnsignedInt (2 ^ 31 + v)) := by
  have hv : toUnsignedInt (v : Int) = v := toUnsignedInt_natCast (by omega)
  have hx : (toUnsignedInt (v : Int)).testBit 31 = false := by
    rw [hv]
    exact Nat.testBit_lt_two_pow h
  rw [pixelFormatWrap_eq_ok (by decide) hx, hv, highBit_or h]

theorem pixelFormatUnwrap_eq_ok (T : IntegralType) {f : PixelFormat}
    (h : f.value.testBit 31 = true) :
    pixelFormatUnwrap T f = .ok (T.convert ((f.value % 2 ^ 31 : Nat) : Int)) := by
  unfold pixelFormatUnwrap constexprAssert
  rw [and_highBit_ne_zero, h, and_complement_highBit]
  rfl

theorem pixelFormatUnwrap_eq_error (T : IntegralType) {f : PixelFormat}
    (h : f.value.testBit 31 = false) :
    pixelFormatUnwrap T f = .error (.assertion
      "pixelFormatUnwrap(): format doesn't contain a wrapped implementation-specific value") := by
  unfold pixelFormatUnwrap constexprAssert
  rw [and_highBit_ne_zero, h]
  rfl

theorem pixelFormatUnwrap_UnsignedInt {f : PixelFormat} (h : f.value.testBit 31 = true) :
    pixelFormatUnwrap UnsignedInt f = .ok ((f.value % 2 ^ 31 : Nat) : Int) := by
  have hlt : f.value % 2 ^ 31 < 2 ^ 32 := by omega
  rw [pixelFormatUnwrap_eq_ok UnsignedInt h, convert_UnsignedInt_natCast hlt]

theorem compressedPixelFormatWrap_eq_ok {T : IntegralType} (hT : T.size ≤ 4) {x : Int}
    (hx : (toUnsignedInt x).testBit 31 = false) :
    compressedPixelFormatWrap T x =
      .ok (CompressedPixelFormat.ofUnsignedInt ((1 <<< 31) ||| toUnsignedInt x)) := by
  unfold compressedPixelFormatWrap constexprAssert
  rw [if_pos hT, and_highBit_ne_zero, hx]
  rfl

theorem compressedPixelFormatWrap_eq_error {T : IntegralType} (hT : T.size ≤ 4) {x : Int}
    (hx : (toUnsignedInt x).testBit 31 = true) :
    compressedPixelFormatWrap T x = .error (.assertion
      "compressedPixelFormatWrap(): implementation-specific value already wrapped or too large") := by
  unfold compressedPixelFormatWrap constexprAssert
  rw [if_pos hT, and_highBit_ne_zero, hx]
  rfl

theorem compressedPixelFormatWrap_natCast {v : Nat} (h : v < 2 ^ 31) :
    compressedPixelFormatWrap UnsignedInt (v : Int) =
      .ok (CompressedPixelFormat.ofUnsignedInt (2 ^ 31 + v)) := by
  have hv : toUnsignedInt (v : Int) = v := toUnsignedInt_natCast (by omega)
  have hx : (toUnsignedInt (v : Int)).testBit 31 = false := by
    rw [hv]
    exact Nat.testBit_lt_two_pow h
  rw [compressedPixelFormatWrap_eq_ok (by decide) hx, hv, highBit_or h]

theorem compressedPixelFormatUnwrap_eq_ok (T : IntegralType) {f : CompressedPixelFormat}
    (h : f.value.testBit 31 = true) :
    compressedPixelFormatUnwrap T f = .ok (T.convert ((f.value % 2 ^ 31 : Nat) : Int)) := by
  unfold compressedPixelFormatUnwrap constexprAssert
  rw [and_highBit_ne_zero, h, and_complement_highBit]
  rfl

theorem compressedPixelFormatUnwrap_eq_error (T : IntegralType) {f : CompressedPixelFormat}
    (h : f.value.testBit 31 = false) :
    compressedPixelFormatUnwrap T f = .error (.assertion
      "compressedPixelFormatUnwrap(): format doesn't contain a wrapped implementation-specific value") := by
  unfold compressedPixelFormatUnwrap constexprAssert
  rw [and_highBit_ne_zero, h]
  rfl

theorem pixelFormatWrap_staticAssert {T : IntegralType} (hT : ¬ T.size ≤ 4) (x : Int) :
    pixelFormatWrap T x =
      .error (.staticAssert "format types larger than 32bits are not supported") := by
  unfold pixelFormatWrap
  rw [if_neg hT]

theorem compressedPixelFormatWrap_staticAssert {T : IntegralType} (hT : ¬ T.size ≤ 4)
    (x : Int) :
    compressedPixelFormatWrap T x =
      .error (.staticAssert "format types larger than 32bits are not supported") := by
  unfold compressedPixelFormatWrap
  rw [if_neg hT]

theorem toUnsignedInt_cast (x : Int) : (toUnsignedInt x : Int) = x % 2 ^ 32 := by
  unfold toUnsignedInt IntegralType.convert UnsignedInt IntegralType.bits
  simp only [Bool.false_and, Bool.false_eq_true, if_false]
  omega

theorem contains_signed_bounds {T : IntegralType} (hs : T.isSigned = true)
    (hsize : T.size = 1 ∨ T.size = 2 ∨ T.size = 4) {x : Int} (hx : T.contains x = true) :
    -(2 ^ 31) ≤ x ∧ x < 2 ^ 31 := by
  obtain ⟨size, isSigned⟩ := T
  simp only at hs hsize
  subst hs
  rcases hsize with h | h | h <;> subst h <;>
    simp [IntegralType.contains, IntegralType.bits] at hx <;> omega

theorem genericPixelFormat_value_lt :
    ∀ c ∈ PixelFormat.namedConstants, c.value < 2 ^ 31 := by
  decide

theorem genericCompressedPixelFormat_value_lt :
    ∀ c ∈ CompressedPixelFormat.namedConstants, c.value < 2 ^ 31 := by
  decide

theorem convert_UnsignedShort_natCast (v : Nat) :
    UnsignedShort.convert (v : Int) = ((v % 2 ^ 16 : Nat) : Int) := by
  unfold IntegralType.convert UnsignedShort IntegralType.bits
  simp only [Bool.false_and, Bool.false_eq_true, if_false]
  omega

/-! ## The codec contract -/

/-- C1: round trip.  For every unsigned 32-bit value `v` with bit 31 clear
(`v < 2 ^ 31`), `pixelFormatWrap(v)` succeeds, and `pixelFormatUnwrap<UnsignedInt>`
of the result succeeds and equals `v`. -/
theorem pixelFormatUnwrap_pixelFormatWrap (v : Nat) (h : v < 2 ^ 31) :
    ∃ f : PixelFormat, pixelFormatWrap UnsignedInt (v : Int) = .ok f ∧
      pixelFormatUnwrap UnsignedInt f = .ok (v : Int) := by
  refine ⟨PixelFormat.ofUnsignedInt (2 ^ 31 + v), pixelFormatWrap_natCast h, ?_⟩
  have hval : (PixelFormat.ofUnsignedInt (2 ^ 31 + v)).value = 2 ^ 31 + v :=
    Nat.mod_eq_of_lt (by omega)
  have hbit : (PixelFormat.ofUnsignedInt (2 ^ 31 + v)).value.testBit 31 = true := by
    rw [hval]
    exact (testBit_highBit_iff (by omega)).mpr (by omega)
  rw [pixelFormatUnwrap_UnsignedInt hbit, hval]
  congr 2
  omega

theorem pixelFormatUnwrap_pixelFormatWrap_witness :
    (0x1234 : Nat) < 2 ^ 31 ∧
    ∃ f : PixelFormat, pixelFormatWrap UnsignedInt ((0x1234 : Nat) : Int) = .ok f ∧
      pixelFormatUnwrap UnsignedInt f = .ok ((0x1234 : Nat) : Int) :=
  ⟨by decide, pixelFormatUnwrap_pixelFormatWrap 0x1234 (by decide)⟩

/-- C2: for every unsigned 32-bit value `v < 2 ^ 31`,
`isPixelFormatImplementationSpecific(pixelFormatWrap(v))` is true. -/
theorem isPixelFormatImplementationSpecific_pixelFormatWrap (v : Nat) (h : v < 2 ^ 31) :
    ∃ f : PixelFormat, pixelFormatWrap UnsignedInt (v : Int) = .ok f ∧
      isPixelFormatImplementationSpecific f = true := by
  refine ⟨PixelFormat.ofUnsignedInt (2 ^ 31 + v), pixelFormatWrap_natCast h, ?_⟩
  have hval : (PixelFormat.ofUnsignedInt (2 ^ 31 + v)).value = 2 ^ 31 + v :=
    Nat.mod_eq_of_lt (by omega)
  unfold isPixelFormatImplementationSpecific
  rw [and_highBit_ne_zero, hval]
  exact (testBit_highBit_iff (by omega)).mpr (by omega)

theorem isPixelFormatImplementationSpecific_pixelFormatWrap_witness :
    (7 : Nat) < 2 ^ 31 ∧
    ∃ f : PixelFormat, pixelFormatWrap UnsignedInt ((7 : Nat) : Int) = .ok f ∧
      isPixelFormatImplementationSpecific f = true :=
  ⟨by decide, isPixelFormatImplementationSpecific_pixelFormatWrap 7 (by decide)⟩

/-- C3: for every unsigned 32-bit value `v < 2 ^ 31`, the integer value of
`pixelFormatWrap(v)` is `v | 0x80000000 = v + 2 ^ 31`: bit 31 is set and bits
0..30 are exactly the bits of `v`. -/
theorem pixelFormatWrap_value (v : Nat) (h : v < 2 ^ 31) :
    ∃ f : PixelFormat, pixelFormatWrap UnsignedInt (v : Int) = .ok f ∧
      f.value = v ||| 0x80000000 ∧ f.value = v + 2 ^ 31 ∧
      f.value.testBit 31 = true ∧ ∀ i, i < 31 → f.value.testBit i = v.testBit i := by
  refine ⟨PixelFormat.ofUnsignedInt (2 ^ 31 + v), pixelFormatWrap_natCast h, ?_⟩
  have hval : (PixelFormat.ofUnsignedInt (2 ^ 31 + v)).value = 2 ^ 31 + v :=
    Nat.mod_eq_of_lt (by omega)
  have hor : v ||| 0x80000000 = 2 ^ 31 + v := by
    rw [Nat.lor_comm, ← highBit_or h]
    rfl
  rw [hval, hor]
  refine ⟨rfl, Nat.add_comm _ _, ?_, ?_⟩
  · exact (testBit_highBit_iff (by omega)).mpr (by omega)
  · intro i hi
    exact Nat.testBit_two_pow_add_gt hi v

theorem pixelFormatWrap_value_witness :
    (0x1234 : Nat) < 2 ^ 31 ∧
    ∃ f : PixelFormat, pixelFormatWrap UnsignedInt ((0x1234 : Nat) : Int) = .ok f ∧
      f.value = 0x1234 ||| 0x80000000 ∧ f.value = 0x1234 + 2 ^ 31 ∧
      f.value.testBit 31 = true ∧ ∀ i, i < 31 → f.value.testBit i = (0x1234 : Nat).testBit i :=
  ⟨by decide, pixelFormatWrap_value 0x1234 (by decide)⟩

/-- C4: `isPixelFormatImplementationSpecific` is defined on every value of the
identifier type and returns true if and only if bit 31 of the identifier is
set, that is, if and only if its integer value is at least `2 ^ 31`. -/
theorem isPixelFormatImplementationSpecific_iff (f : PixelFormat) :
    (isPixelFormatImplementationSpecific f = true ↔ f.value.testBit 31 = true) ∧
    (isPixelFormatImplementationSpecific f = true ↔ 2 ^ 31 ≤ f.value) := by
  have hb : isPixelFormatImplementationSpecific f = f.value.testBit 31 :=
    and_highBit_ne_zero f.value
  rw [hb]
  exact ⟨Iff.rfl, testBit_highBit_iff f.isLt⟩

/-- C5: `pixelFormatWrap` fails its precondition check (the assertion) if and
only if the input, converted to an unsigned 32-bit integer, has bit 31 set; for
every input with bit 31 clear it returns a value. -/
theorem pixelFormatWrap_assertion_iff (T : IntegralType) (hT : T.size ≤ 4) (x : Int) :
    ((∃ message, pixelFormatWrap T x = .error (.assertion message)) ↔
      (toUnsignedInt x).testBit 31 = true) ∧
    ((toUnsignedInt x).testBit 31 = false → ∃ f : PixelFormat, pixelFormatWrap T x = .ok f) := by
  refine ⟨⟨?_, fun hx => ⟨_, pixelFormatWrap_eq_error hT hx⟩⟩,
    fun hx => ⟨_, pixelFormatWrap_eq_ok hT hx⟩⟩
  rintro ⟨message, hm⟩
  cases hx : (toUnsignedInt x).testBit 31
  · rw [pixelFormatWrap_eq_ok hT hx] at hm
    cases hm
  · rfl

theorem pixelFormatWrap_assertion_iff_witness :
    UnsignedInt.size ≤ 4 ∧
    ((∃ message, pixelFormatWrap UnsignedInt 0x80001234 = .error (.assertion message)) ↔
      (toUnsignedInt 0x80001234).testBit 31 = true) ∧
    ((toUnsignedInt 0x80001234).testBit 31 = false →
      ∃ f : PixelFormat, pixelFormatWrap UnsignedInt 0x80001234 = .ok f) :=
  ⟨by decide, pixelFormatWrap_assertion_iff UnsignedInt (by decide) 0x80001234⟩

/-- C6: `pixelFormatUnwrap` fails its precondition check (the assertion) if and
only if the identifier does not have bit 31 set, that is, if and only if
`isPixelFormatImplementationSpecific(format)` is false. -/
theorem pixelFormatUnwrap_assertion_iff (T : IntegralType) (f : PixelFormat) :
    ((∃ message, pixelFormatUnwrap T f = .error (.assertion message)) ↔
      f.value.testBit 31 = false) ∧
    ((∃ message, pixelFormatUnwrap T f = .error (.assertion message)) ↔
      isPixelFormatImplementationSpecific f = false) := by
  have hb : isPixelFormatImplementationSpecific f = f.value.testBit 31 :=
    and_highBit_ne_zero f.value
  rw [hb]
  have key : (∃ message, pixelFormatUnwrap T f = .error (.assertion message)) ↔
      f.value.testBit 31 = false := by
    refine ⟨?_, fun h => ⟨_, pixelFormatUnwrap_eq_error T h⟩⟩
    rintro ⟨message, hm⟩
    cases h : f.value.testBit 31
    · rfl
    · rw [pixelFormatUnwrap_eq_ok T h] at hm
      cases hm
  exact ⟨key, key⟩

/-- C7: for every identifier `f` with bit 31 set, `pixelFormatUnwrap<UnsignedInt>(f)`
equals the low 31 bits of `f`, that is `f & 0x7FFFFFFF = f - 2 ^ 31`; only bit 31
is cleared and bits 0..30 are unchanged. -/
theorem pixelFormatUnwrap_value (f : PixelFormat) (h : f.value.testBit 31 = true) :
    ∃ r : Nat, pixelFormatUnwrap UnsignedInt f = .ok (r : Int) ∧
      r = f.value &&& 0x7FFFFFFF ∧ r = f.value - 2 ^ 31 ∧ r + 2 ^ 31 = f.value ∧
      r.testBit 31 = false ∧ ∀ i, i < 31 → r.testBit i = f.value.testBit i := by
  have hge : 2 ^ 31 ≤ f.value := (testBit_highBit_iff f.isLt).mp h
  have hlt := f.isLt
  have hand : f.value &&& 0x7FFFFFFF = f.value % 2 ^ 31 :=
    Nat.and_pow_two_sub_one_eq_mod f.value 31
  refine ⟨f.value % 2 ^ 31, pixelFormatUnwrap_UnsignedInt h, hand.symm, by omega, by omega,
    Nat.testBit_lt_two_pow (by omega), ?_⟩
  intro i hi
  rw [Nat.testBit_mod_two_pow]
  simp [hi]

theorem pixelFormatUnwrap_value_witness :
    (⟨0x80001234, by decide⟩ : PixelFormat).value.testBit 31 = true ∧
    ∃ r : Nat, pixelFormatUnwrap UnsignedInt ⟨0x80001234, by decide⟩ = .ok (r : Int) ∧
      r = 0x80001234 &&& 0x7FFFFFFF ∧ r = 0x80001234 - 2 ^ 31 ∧ r + 2 ^ 31 = 0x80001234 ∧
      r.testBit 31 = false ∧ ∀ i, i < 31 → r.testBit i = (0x80001234 : Nat).testBit i :=
  ⟨by decide, pixelFormatUnwrap_value ⟨0x80001234, by decide⟩ (by decide)⟩

/-- C8: wrap is the inverse of unwrap.  For every identifier `f` with bit 31
set, `pixelFormatUnwrap<UnsignedInt>(f)` has bit 31 clear, so `pixelFormatWrap`
of it succeeds, and `pixelFormatWrap(pixelFormatUnwrap(f))` equals `f`. -/
theorem pixelFormatWrap_pixelFormatUnwrap (f : PixelFormat) (h : f.value.testBit 31 = true) :
    ∃ v : Int, pixelFormatUnwrap UnsignedInt f = .ok v ∧
      (toUnsignedInt v).testBit 31 = false ∧ pixelFormatWrap UnsignedInt v = .ok f := by
  have hge : 2 ^ 31 ≤ f.value := (testBit_highBit_iff f.isLt).mp h
  have hlt := f.isLt
  have hr : f.value % 2 ^ 31 < 2 ^ 31 := by omega
  refine ⟨((f.value % 2 ^ 31 : Nat) : Int), pixelFormatUnwrap_UnsignedInt h, ?_, ?_⟩
  · rw [toUnsignedInt_natCast (by omega)]
    exact Nat.testBit_lt_two_pow hr
  · rw [pixelFormatWrap_natCast hr]
    congr 1
    apply PixelFormat.ext_value
    show (2 ^ 31 + f.value % 2 ^ 31) % 2 ^ 32 = f.value
    omega

theorem pixelFormatWrap_pixelFormatUnwrap_witness :
    (⟨0x80001234, by decide⟩ : PixelFormat).value.testBit 31 = true ∧
    ∃ v : Int, pixelFormatUnwrap UnsignedInt ⟨0x80001234, by decide⟩ = .ok v ∧
      (toUnsignedInt v).testBit 31 = false ∧
      pixelFormatWrap UnsignedInt v = .ok ⟨0x80001234, by decide⟩ :=
  ⟨by decide, pixelFormatWrap_pixelFormatUnwrap ⟨0x80001234, by decide⟩ (by decide)⟩

/-- C9: concrete case.  `pixelFormatWrap(0x1234u)` yields an identifier whose
integer value is `0x80001234`, and `pixelFormatUnwrap` applied to the identifier
with integer value `0x80001234` yields `0x1234`. -/
theorem pixelFormatWrap_0x1234 :
    (pixelFormatWrap UnsignedInt 0x1234).map PixelFormat.value = .ok 0x80001234 ∧
    pixelFormatUnwrap UnsignedInt ⟨0x80001234, by decide⟩ = .ok 0x1234 := by
  decide

/-- C10: for every named constant `f` of the `PixelFormat` enumeration
(`R8Unorm` through `RGBA32F`), `isPixelFormatImplementationSpecific(f)` is
false (there are 52 such constants). -/
theorem isPixelFormatImplementationSpecific_namedConstants :
    PixelFormat.namedConstants.length = 52 ∧
    ∀ f ∈ PixelFormat.namedConstants, isPixelFormatImplementationSpecific f = false := by
  decide

/-! ## The compressed codec -/

/-- C11: for every named constant `f` of the `CompressedPixelFormat` enumeration
(`Bc1RGBUnorm` through `PvrtcRGBA4bppSrgb`),
`isCompressedPixelFormatImplementationSpecific(f)` is false (there are 62 such
constants). -/
theorem isCompressedPixelFormatImplementationSpecific_namedConstants :
    CompressedPixelFormat.namedConstants.length = 62 ∧
    ∀ f ∈ CompressedPixelFormat.namedConstants,
      isCompressedPixelFormatImplementationSpecific f = false := by
  decide

/-- C12: the reserved value 0 is not the integer value of any named constant of
`PixelFormat`, nor of any named constant of `CompressedPixelFormat`. -/
theorem namedConstants_value_ne_zero :
    (∀ f ∈ PixelFormat.namedConstants, f.value ≠ 0) ∧
    (∀ f ∈ CompressedPixelFormat.namedConstants, f.value ≠ 0) := by
  decide

/-- C13: round trip of the compressed codec.  For every unsigned 32-bit value
`v < 2 ^ 31`, `compressedPixelFormatWrap(v)` succeeds,
`isCompressedPixelFormatImplementationSpecific` of the result is true, and
`compressedPixelFormatUnwrap<UnsignedInt>` of the result equals `v`. -/
theorem compressedPixelFormatUnwrap_compressedPixelFormatWrap (v : Nat) (h : v < 2 ^ 31) :
    ∃ f : CompressedPixelFormat, compressedPixelFormatWrap UnsignedInt (v : Int) = .ok f ∧
      isCompressedPixelFormatImplementationSpecific f = true ∧
      compressedPixelFormatUnwrap UnsignedInt f = .ok (v : Int) := by
  refine ⟨CompressedPixelFormat.ofUnsignedInt (2 ^ 31 + v),
    compressedPixelFormatWrap_natCast h, ?_, ?_⟩
  · have hval : (CompressedPixelFormat.ofUnsignedInt (2 ^ 31 + v)).value = 2 ^ 31 + v :=
      Nat.mod_eq_of_lt (by omega)
    unfold isCompressedPixelFormatImplementationSpecific
    rw [and_highBit_ne_zero, hval]
    exact (testBit_highBit_iff (by omega)).mpr (by omega)
  · have hval : (CompressedPixelFormat.ofUnsignedInt (2 ^ 31 + v)).value = 2 ^ 31 + v :=
      Nat.mod_eq_of_lt (by omega)
    have hbit : (CompressedPixelFormat.ofUnsignedInt (2 ^ 31 + v)).value.testBit 31 = true := by
      rw [hval]
      exact (testBit_highBit_iff (by omega)).mpr (by omega)
    have hlt : (2 ^ 31 + v) % 2 ^ 31 < 2 ^ 32 := by omega
    rw [compressedPixelFormatUnwrap_eq_ok UnsignedInt hbit, hval,
      convert_UnsignedInt_natCast hlt]
    congr 2
    omega

theorem compressedPixelFormatUnwrap_compressedPixelFormatWrap_witness :
    (0x1234 : Nat) < 2 ^ 31 ∧
    ∃ f : CompressedPixelFormat,
      compressedPixelFormatWrap UnsignedInt ((0x1234 : Nat) : Int) = .ok f ∧
      isCompressedPixelFormatImplementationSpecific f = true ∧
      compressedPixelFormatUnwrap UnsignedInt f = .ok ((0x1234 : Nat) : Int) :=
  ⟨by decide, compressedPixelFormatUnwrap_compressedPixelFormatWrap 0x1234 (by decide)⟩

/-- C14: the compressed codec is the same function as the uncompressed codec on
the underlying 32-bit integers.  The two predicates agree on every identifier
value; the two wrap functions fail on exactly the same inputs and otherwise
return identifiers with the same integer value; the two unwrap functions fail
on exactly the same identifier values and otherwise return the same value. -/
theorem compressed_codec_eq_codec (T : IntegralType) (x : Int) (f : PixelFormat) :
    isCompressedPixelFormatImplementationSpecific ⟨f.value, f.isLt⟩ =
      isPixelFormatImplementationSpecific f ∧
    (compressedPixelFormatWrap T x).toOption.map CompressedPixelFormat.value =
      (pixelFormatWrap T x).toOption.map PixelFormat.value ∧
    ((∃ message, compressedPixelFormatWrap T x = .error (.assertion message)) ↔
      (∃ message, pixelFormatWrap T x = .error (.assertion message))) ∧
    (compressedPixelFormatUnwrap T ⟨f.value, f.isLt⟩).toOption =
      (pixelFormatUnwrap T f).toOption ∧
    ((∃ message, compressedPixelFormatUnwrap T ⟨f.value, f.isLt⟩ =
        .error (.assertion message)) ↔
      (∃ message, pixelFormatUnwrap T f = .error (.assertion message))) := by
  refine ⟨rfl, ?_, ?_, ?_, ?_⟩
  · by_cases hT : T.size ≤ 4
    · cases hx : (toUnsignedInt x).testBit 31
      · rw [compressedPixelFormatWrap_eq_ok hT hx, pixelFormatWrap_eq_ok hT hx]
        rfl
      · rw [compressedPixelFormatWrap_eq_error hT hx, pixelFormatWrap_eq_error hT hx]
        rfl
    · rw [compressedPixelFormatWrap_staticAssert hT, pixelFormatWrap_staticAssert hT]
      rfl
  · by_cases hT : T.size ≤ 4
    · cases hx : (toUnsignedInt x).testBit 31
      · rw [compressedPixelFormatWrap_eq_ok hT hx, pixelFormatWrap_eq_ok hT hx]
        constructor <;> (rintro ⟨message, hm⟩; cases hm)
      · rw [compressedPixelFormatWrap_eq_error hT hx, pixelFormatWrap_eq_error hT hx]
        exact ⟨fun _ => ⟨_, rfl⟩, fun _ => ⟨_, rfl⟩⟩
    · rw [compressedPixelFormatWrap_staticAssert hT, pixelFormatWrap_staticAssert hT]
      constructor <;> (rintro ⟨message, hm⟩; cases hm)
  · cases h : f.value.testBit 31
    · have hc : (⟨f.value, f.isLt⟩ : CompressedPixelFormat).value.testBit 31 = false := h
      rw [compressedPixelFormatUnwrap_eq_error T hc, pixelFormatUnwrap_eq_error T h]
      rfl
    · have hc : (⟨f.value, f.isLt⟩ : CompressedPixelFormat).value.testBit 31 = true := h
      rw [compressedPixelFormatUnwrap_eq_ok T hc, pixelFormatUnwrap_eq_ok T h]
  · cases h : f.value.testBit 31
    · have hc : (⟨f.value, f.isLt⟩ : CompressedPixelFormat).value.testBit 31 = false := h
      rw [compressedPixelFormatUnwrap_eq_error T hc, pixelFormatUnwrap_eq_error T h]
      exact ⟨fun _ => ⟨_, rfl⟩, fun _ => ⟨_, rfl⟩⟩
    · have hc : (⟨f.value, f.isLt⟩ : CompressedPixelFormat).value.testBit 31 = true := h
      rw [compressedPixelFormatUnwrap_eq_ok T hc, pixelFormatUnwrap_eq_ok T h]

/-- C15: wrapping an already wrapped value is rejected.  For every unsigned
32-bit `v < 2 ^ 31`, applying `pixelFormatWrap` to the integer value of
`pixelFormatWrap(v)` fails its precondition check instead of returning a
value. -/
theorem pixelFormatWrap_pixelFormatWrap (v : Nat) (h : v < 2 ^ 31) :
    ∃ f : PixelFormat, pixelFormatWrap UnsignedInt (v : Int) = .ok f ∧
      pixelFormatWrap UnsignedInt (f.value : Int) = .error (.assertion
        "pixelFormatWrap(): implementation-specific value already wrapped or too large") := by
  refine ⟨PixelFormat.ofUnsignedInt (2 ^ 31 + v), pixelFormatWrap_natCast h, ?_⟩
  have hval : (PixelFormat.ofUnsignedInt (2 ^ 31 + v)).value = 2 ^ 31 + v :=
    Nat.mod_eq_of_lt (by omega)
  apply pixelFormatWrap_eq_error (by decide)
  rw [hval, toUnsignedInt_natCast (by omega)]
  exact (testBit_highBit_iff (by omega)).mpr (by omega)

theorem pixelFormatWrap_pixelFormatWrap_witness :
    (0x1234 : Nat) < 2 ^ 31 ∧
    ∃ f : PixelFormat, pixelFormatWrap UnsignedInt ((0x1234 : Nat) : Int) = .ok f ∧
      pixelFormatWrap UnsignedInt (f.value : Int) = .error (.assertion
        "pixelFormatWrap(): implementation-specific value already wrapped or too large") :=
  ⟨by decide, pixelFormatWrap_pixelFormatWrap 0x1234 (by decide)⟩

/-! ## The Vulkan mapping table of the compressed formats -/

theorem compressedFormatMapping_collide :
    ∀ e ∈ Vk.Implementation.compressedFormatMapping,
    ∀ d ∈ Vk.Implementation.compressedFormatMapping, e.2 = d.2 → e.1 ≠ d.1 →
      e.1 ∈ CompressedPixelFormat.namedConstants.drop 54 ∧
      d.1 ∈ CompressedPixelFormat.namedConstants.drop 54 := by
  set_option maxRecDepth 1000000 in decide

theorem namedConstants_drop_54 :
    CompressedPixelFormat.namedConstants.drop 54 =
      [CompressedPixelFormat.PvrtcRGB2bppUnorm, CompressedPixelFormat.PvrtcRGB2bppSrgb,
       CompressedPixelFormat.PvrtcRGBA2bppUnorm, CompressedPixelFormat.PvrtcRGBA2bppSrgb,
       CompressedPixelFormat.PvrtcRGB4bppUnorm, CompressedPixelFormat.PvrtcRGB4bppSrgb,
       CompressedPixelFormat.PvrtcRGBA4bppUnorm, CompressedPixelFormat.PvrtcRGBA4bppSrgb] :=
  rfl

/-- C16: in the compressed-format mapping table, `PvrtcRGB2bppUnorm` and
`PvrtcRGBA2bppUnorm`, two distinct enumeration values, both map to the identical
native token `PVRTC1_2BPP_UNORM_BLOCK_IMG` (and to no other token). -/
theorem compressedFormatMapping_Pvrtc2bppUnorm :
    CompressedPixelFormat.PvrtcRGB2bppUnorm ≠ CompressedPixelFormat.PvrtcRGBA2bppUnorm ∧
    (CompressedPixelFormat.PvrtcRGB2bppUnorm, "PVRTC1_2BPP_UNORM_BLOCK_IMG") ∈
      Vk.Implementation.compressedFormatMapping ∧
    (CompressedPixelFormat.PvrtcRGBA2bppUnorm, "PVRTC1_2BPP_UNORM_BLOCK_IMG") ∈
      Vk.Implementation.compressedFormatMapping ∧
    ∀ e ∈ Vk.Implementation.compressedFormatMapping,
      e.1 = CompressedPixelFormat.PvrtcRGB2bppUnorm ∨
        e.1 = CompressedPixelFormat.PvrtcRGBA2bppUnorm →
      e.2 = "PVRTC1_2BPP_UNORM_BLOCK_IMG" := by
  set_option maxRecDepth 1000000 in decide

/-- C17: in the compressed-format mapping table, the sRGB counterparts
`PvrtcRGB2bppSrgb` and `PvrtcRGBA2bppSrgb` both map to the same native token
`PVRTC1_2BPP_SRGB_BLOCK_IMG`, which differs from the token
`PVRTC1_2BPP_UNORM_BLOCK_IMG` that the two Unorm formats map to: the four formats
map onto a pair of two tokens. -/
theorem compressedFormatMapping_Pvrtc2bppSrgb :
    (CompressedPixelFormat.PvrtcRGB2bppSrgb, "PVRTC1_2BPP_SRGB_BLOCK_IMG") ∈
      Vk.Implementation.compressedFormatMapping ∧
    (CompressedPixelFormat.PvrtcRGBA2bppSrgb, "PVRTC1_2BPP_SRGB_BLOCK_IMG") ∈
      Vk.Implementation.compressedFormatMapping ∧
    "PVRTC1_2BPP_SRGB_BLOCK_IMG" ≠ "PVRTC1_2BPP_UNORM_BLOCK_IMG" ∧
    (∀ e ∈ Vk.Implementation.compressedFormatMapping,
      e.1 = CompressedPixelFormat.PvrtcRGB2bppSrgb ∨
        e.1 = CompressedPixelFormat.PvrtcRGBA2bppSrgb →
      e.2 = "PVRTC1_2BPP_SRGB_BLOCK_IMG") ∧
    (∀ e ∈ Vk.Implementation.compressedFormatMapping,
      e.1 = CompressedPixelFormat.PvrtcRGB2bppUnorm ∨
        e.1 = CompressedPixelFormat.PvrtcRGBA2bppUnorm →
      e.2 = "PVRTC1_2BPP_UNORM_BLOCK_IMG") := by
  set_option maxRecDepth 1000000 in decide

/-- C18, as stated, fails: `PvrtcRGB4bppUnorm` and `PvrtcRGBA4bppUnorm` are
distinct formats of the table that map to the same native token
`PVRTC1_4BPP_UNORM_BLOCK_IMG`, and neither is one of the four 2bpp PVRTC
formats. -/
theorem compressedFormatMapping_Pvrtc4bpp_collide :
    ((CompressedPixelFormat.PvrtcRGB4bppUnorm, "PVRTC1_4BPP_UNORM_BLOCK_IMG") ∈
        Vk.Implementation.compressedFormatMapping ∧
      (CompressedPixelFormat.PvrtcRGBA4bppUnorm, "PVRTC1_4BPP_UNORM_BLOCK_IMG") ∈
        Vk.Implementation.compressedFormatMapping ∧
      CompressedPixelFormat.PvrtcRGB4bppUnorm ≠ CompressedPixelFormat.PvrtcRGBA4bppUnorm ∧
      CompressedPixelFormat.PvrtcRGB4bppUnorm ∉
        [CompressedPixelFormat.PvrtcRGB2bppUnorm, CompressedPixelFormat.PvrtcRGBA2bppUnorm,
         CompressedPixelFormat.PvrtcRGB2bppSrgb, CompressedPixelFormat.PvrtcRGBA2bppSrgb]) ∧
    ¬ ∀ (a b : CompressedPixelFormat) (t : String),
        (a, t) ∈ Vk.Implementation.compressedFormatMapping →
        (b, t) ∈ Vk.Implementation.compressedFormatMapping → a ≠ b →
        a ∈ [CompressedPixelFormat.PvrtcRGB2bppUnorm, CompressedPixelFormat.PvrtcRGBA2bppUnorm,
             CompressedPixelFormat.PvrtcRGB2bppSrgb, CompressedPixelFormat.PvrtcRGBA2bppSrgb] ∧
        b ∈ [CompressedPixelFormat.PvrtcRGB2bppUnorm, CompressedPixelFormat.PvrtcRGBA2bppUnorm,
             CompressedPixelFormat.PvrtcRGB2bppSrgb, CompressedPixelFormat.PvrtcRGBA2bppSrgb] := by
  have facts :
      (CompressedPixelFormat.PvrtcRGB4bppUnorm, "PVRTC1_4BPP_UNORM_BLOCK_IMG") ∈
        Vk.Implementation.compressedFormatMapping ∧
      (CompressedPixelFormat.PvrtcRGBA4bppUnorm, "PVRTC1_4BPP_UNORM_BLOCK_IMG") ∈
        Vk.Implementation.compressedFormatMapping ∧
      CompressedPixelFormat.PvrtcRGB4bppUnorm ≠ CompressedPixelFormat.PvrtcRGBA4bppUnorm ∧
      CompressedPixelFormat.PvrtcRGB4bppUnorm ∉
        [CompressedPixelFormat.PvrtcRGB2bppUnorm, CompressedPixelFormat.PvrtcRGBA2bppUnorm,
         CompressedPixelFormat.PvrtcRGB2bppSrgb, CompressedPixelFormat.PvrtcRGBA2bppSrgb] := by
    set_option maxRecDepth 1000000 in decide
  refine ⟨facts, fun hall => ?_⟩
  exact facts.2.2.2 (hall _ _ _ facts.1 facts.2.1 facts.2.2.1).1

/-- C18, amended: for every two distinct compressed formats `a` and `b` in the
mapping table that map to the same native token, both `a` and `b` are among the
eight PVRTC formats (the four 2bpp and the four 4bpp ones); the mapping is
injective on all other formats. -/
theorem compressedFormatMapping_injective_off_Pvrtc (a b : CompressedPixelFormat)
    (t : String) (ha : (a, t) ∈ Vk.Implementation.compressedFormatMapping)
    (hb : (b, t) ∈ Vk.Implementation.compressedFormatMapping) (hab : a ≠ b) :
    a ∈ [CompressedPixelFormat.PvrtcRGB2bppUnorm, CompressedPixelFormat.PvrtcRGB2bppSrgb,
         CompressedPixelFormat.PvrtcRGBA2bppUnorm, CompressedPixelFormat.PvrtcRGBA2bppSrgb,
         CompressedPixelFormat.PvrtcRGB4bppUnorm, CompressedPixelFormat.PvrtcRGB4bppSrgb,
         CompressedPixelFormat.PvrtcRGBA4bppUnorm, CompressedPixelFormat.PvrtcRGBA4bppSrgb] ∧
    b ∈ [CompressedPixelFormat.PvrtcRGB2bppUnorm, CompressedPixelFormat.PvrtcRGB2bppSrgb,
         CompressedPixelFormat.PvrtcRGBA2bppUnorm, CompressedPixelFormat.PvrtcRGBA2bppSrgb,
         CompressedPixelFormat.PvrtcRGB4bppUnorm, CompressedPixelFormat.PvrtcRGB4bppSrgb,
         CompressedPixelFormat.PvrtcRGBA4bppUnorm, CompressedPixelFormat.PvrtcRGBA4bppSrgb] := by
  have h := compressedFormatMapping_collide (a, t) ha (b, t) hb rfl hab
  rw [namedConstants_drop_54] at h
  exact h

theorem compressedFormatMapping_injective_off_Pvrtc_witness :
    ((CompressedPixelFormat.PvrtcRGB4bppSrgb, "PVRTC1_4BPP_SRGB_BLOCK_IMG") ∈
        Vk.Implementation.compressedFormatMapping ∧
      (CompressedPixelFormat.PvrtcRGBA4bppSrgb, "PVRTC1_4BPP_SRGB_BLOCK_IMG") ∈
        Vk.Implementation.compressedFormatMapping ∧
      CompressedPixelFormat.PvrtcRGB4bppSrgb ≠ CompressedPixelFormat.PvrtcRGBA4bppSrgb) ∧
    (CompressedPixelFormat.PvrtcRGB4bppSrgb ∈
      [CompressedPixelFormat.PvrtcRGB2bppUnorm, CompressedPixelFormat.PvrtcRGB2bppSrgb,
       CompressedPixelFormat.PvrtcRGBA2bppUnorm, CompressedPixelFormat.PvrtcRGBA2bppSrgb,
       CompressedPixelFormat.PvrtcRGB4bppUnorm, CompressedPixelFormat.PvrtcRGB4bppSrgb,
       CompressedPixelFormat.PvrtcRGBA4bppUnorm, CompressedPixelFormat.PvrtcRGBA4bppSrgb] ∧
     CompressedPixelFormat.PvrtcRGBA4bppSrgb ∈
      [CompressedPixelFormat.PvrtcRGB2bppUnorm, CompressedPixelFormat.PvrtcRGB2bppSrgb,
       CompressedPixelFormat.PvrtcRGBA2bppUnorm, CompressedPixelFormat.PvrtcRGBA2bppSrgb,
       CompressedPixelFormat.PvrtcRGB4bppUnorm, CompressedPixelFormat.PvrtcRGB4bppSrgb,
       CompressedPixelFormat.PvrtcRGBA4bppUnorm, CompressedPixelFormat.PvrtcRGBA4bppSrgb]) :=
  ⟨by set_option maxRecDepth 1000000 in decide,
    compressedFormatMapping_injective_off_Pvrtc
      CompressedPixelFormat.PvrtcRGB4bppSrgb CompressedPixelFormat.PvrtcRGBA4bppSrgb
      "PVRTC1_4BPP_SRGB_BLOCK_IMG"
      (by set_option maxRecDepth 1000000 in decide)
      (by set_option maxRecDepth 1000000 in decide)
      (by decide)⟩

/-- C19: the compressed-format mapping table is a total function on the closed
enumeration.  It has 62 entries; every named constant of `CompressedPixelFormat`
is the key of exactly one entry; every key is a named constant of
`CompressedPixelFormat`. -/
theorem compressedFormatMapping_total :
    Vk.Implementation.compressedFormatMapping.length = 62 ∧
    CompressedPixelFormat.namedConstants.length = 62 ∧
    (∀ f ∈ CompressedPixelFormat.namedConstants,
      (Vk.Implementation.compressedFormatMapping.map Prod.fst).count f = 1) ∧
    (∀ e ∈ Vk.Implementation.compressedFormatMapping,
      e.1 ∈ CompressedPixelFormat.namedConstants) := by
  set_option maxRecDepth 1000000 in decide

/-- C20: for every named constant of `CompressedPixelFormat`, the native token
the mapping table assigns to it is the Vulkan token named in the documentation
comment of that constant (the `FORMAT_<token>` of its `@def_vk_keyword`); for
example `Bc1RGBUnorm` maps to `BC1_RGB_UNORM_BLOCK` and `PvrtcRGBA4bppSrgb` to
`PVRTC1_4BPP_SRGB_BLOCK_IMG`. -/
theorem compressedFormatMapping_documentedVkKeyword :
    CompressedPixelFormat.documentedVkKeyword.map Prod.fst =
      CompressedPixelFormat.namedConstants ∧
    (∀ f ∈ CompressedPixelFormat.namedConstants,
      ∃ e ∈ Vk.Implementation.compressedFormatMapping, e.1 = f) ∧
    (∀ e ∈ Vk.Implementation.compressedFormatMapping,
      ∀ d ∈ CompressedPixelFormat.documentedVkKeyword, e.1 = d.1 → "FORMAT_" ++ e.2 = d.2) ∧
    (CompressedPixelFormat.Bc1RGBUnorm, "BC1_RGB_UNORM_BLOCK") ∈
      Vk.Implementation.compressedFormatMapping ∧
    (CompressedPixelFormat.PvrtcRGBA4bppSrgb, "PVRTC1_4BPP_SRGB_BLOCK_IMG") ∈
      Vk.Implementation.compressedFormatMapping := by
  refine ⟨by decide, ?_, ?_, ?_, ?_⟩
  · set_option maxRecDepth 1000000 in decide
  · set_option maxRecDepth 1000000 in decide
  · set_option maxRecDepth 1000000 in decide
  · set_option maxRecDepth 1000000 in decide

/-! ## The values of the enumerators -/

/-- C22: the named constants of `PixelFormat` are pairwise distinct and their
integer values are exactly the consecutive range 1..52, with `R8Unorm = 1` and
`RGBA32F = 52` (no gaps, no aliases). -/
theorem PixelFormat_namedConstants_values :
    PixelFormat.namedConstants.Nodup ∧
    PixelFormat.namedConstants.map PixelFormat.value =
      (List.range 52).map (fun i => i + 1) ∧
    PixelFormat.R8Unorm.value = 1 ∧ PixelFormat.RGBA32F.value = 52 := by
  set_option maxRecDepth 1000000 in decide

/-- C23: the named constants of `CompressedPixelFormat` are pairwise distinct and
their integer values are exactly the consecutive range 1..62, with
`Bc1RGBUnorm = 1` and `PvrtcRGBA4bppSrgb = 62` (no gaps, no aliases). -/
theorem CompressedPixelFormat_namedConstants_values :
    CompressedPixelFormat.namedConstants.Nodup ∧
    CompressedPixelFormat.namedConstants.map CompressedPixelFormat.value =
      (List.range 62).map (fun i => i + 1) ∧
    CompressedPixelFormat.Bc1RGBUnorm.value = 1 ∧
    CompressedPixelFormat.PvrtcRGBA4bppSrgb.value = 62 := by
  set_option maxRecDepth 1000000 in decide

/-- C24: the mapping table lists its entries in enumeration order.  For every
`i` from 1 to 62 the key of the `i`-th entry is the `CompressedPixelFormat`
constant whose integer value is `i`, so the entry of a format is found at the
index `value - 1`. -/
theorem compressedFormatMapping_enumeration_order :
    Vk.Implementation.compressedFormatMapping.map Prod.fst =
      CompressedPixelFormat.namedConstants ∧
    Vk.Implementation.compressedFormatMapping.map (fun e => e.1.value) =
      (List.range 62).map (fun i => i + 1) ∧
    (∀ e ∈ Vk.Implementation.compressedFormatMapping,
      Vk.Implementation.compressedFormatMapping[e.1.value - 1]? = some e) := by
  refine ⟨by decide, by decide, ?_⟩
  set_option maxRecDepth 1000000 in decide

/-! ## Generic and wrapped identifiers, signed inputs, narrow results -/

/-- C25: wrapped identifiers never collide with generic ones.  For every
unsigned 32-bit `v < 2 ^ 31`, `pixelFormatWrap(v)` is different from every named
constant of `PixelFormat`, and `compressedPixelFormatWrap(v)` is different from
every named constant of `CompressedPixelFormat`. -/
theorem pixelFormatWrap_ne_namedConstants (v : Nat) (h : v < 2 ^ 31) :
    (∃ f : PixelFormat, pixelFormatWrap UnsignedInt (v : Int) = .ok f ∧
      ∀ c ∈ PixelFormat.namedConstants, f ≠ c) ∧
    (∃ g : CompressedPixelFormat, compressedPixelFormatWrap UnsignedInt (v : Int) = .ok g ∧
      ∀ c ∈ CompressedPixelFormat.namedConstants, g ≠ c) := by
  constructor
  · refine ⟨PixelFormat.ofUnsignedInt (2 ^ 31 + v), pixelFormatWrap_natCast h, ?_⟩
    intro c hc heq
    have hval : (PixelFormat.ofUnsignedInt (2 ^ 31 + v)).value = 2 ^ 31 + v :=
      Nat.mod_eq_of_lt (by omega)
    have hlt := genericPixelFormat_value_lt c hc
    rw [← heq, hval] at hlt
    omega
  · refine ⟨CompressedPixelFormat.ofUnsignedInt (2 ^ 31 + v),
      compressedPixelFormatWrap_natCast h, ?_⟩
    intro c hc heq
    have hval : (CompressedPixelFormat.ofUnsignedInt (2 ^ 31 + v)).value = 2 ^ 31 + v :=
      Nat.mod_eq_of_lt (by omega)
    have hlt := genericCompressedPixelFormat_value_lt c hc
    rw [← heq, hval] at hlt
    omega

theorem pixelFormatWrap_ne_namedConstants_witness :
    (1 : Nat) < 2 ^ 31 ∧
    ((∃ f : PixelFormat, pixelFormatWrap UnsignedInt ((1 : Nat) : Int) = .ok f ∧
      ∀ c ∈ PixelFormat.namedConstants, f ≠ c) ∧
    (∃ g : CompressedPixelFormat,
      compressedPixelFormatWrap UnsignedInt ((1 : Nat) : Int) = .ok g ∧
      ∀ c ∈ CompressedPixelFormat.namedConstants, g ≠ c)) :=
  ⟨by decide, pixelFormatWrap_ne_namedConstants 1 (by decide)⟩

/-- C26: negative inputs of a signed type are rejected by `pixelFormatWrap`.
For every value `x` of a signed 8-, 16- or 32-bit type: if `x < 0`, the
conversion `UnsignedInt(x)` is `x + 2 ^ 32` (that is `x` modulo `2 ^ 32`), it has
bit 31 set and `pixelFormatWrap(x)` fails its precondition check; if `x ≥ 0`, the
call succeeds with the integer value `2 ^ 31 + x`. -/
theorem pixelFormatWrap_signed (T : IntegralType) (hs : T.isSigned = true)
    (hsize : T.size = 1 ∨ T.size = 2 ∨ T.size = 4) (x : Int) (hx : T.contains x = true) :
    (x < 0 → (toUnsignedInt x : Int) = x + 2 ^ 32 ∧ (toUnsignedInt x).testBit 31 = true ∧
      pixelFormatWrap T x = .error (.assertion
        "pixelFormatWrap(): implementation-specific value already wrapped or too large")) ∧
    (0 ≤ x → ∃ f : PixelFormat, pixelFormatWrap T x = .ok f ∧ (f.value : Int) = 2 ^ 31 + x) := by
  have hb := contains_signed_bounds hs hsize hx
  have hT : T.size ≤ 4 := by omega
  have hcast := toUnsignedInt_cast x
  have hlt := toUnsignedInt_lt x
  constructor
  · intro hneg
    have hbit : (toUnsignedInt x).testBit 31 = true :=
      (testBit_highBit_iff hlt).mpr (by omega)
    exact ⟨by omega, hbit, pixelFormatWrap_eq_error hT hbit⟩
  · intro hpos
    have hsmall : toUnsignedInt x < 2 ^ 31 := by omega
    have hbit : (toUnsignedInt x).testBit 31 = false := Nat.testBit_lt_two_pow hsmall
    refine ⟨_, pixelFormatWrap_eq_ok hT hbit, ?_⟩
    rw [highBit_or hsmall]
    show (((2 ^ 31 + toUnsignedInt x) % 2 ^ 32 : Nat) : Int) = 2 ^ 31 + x
    omega

theorem pixelFormatWrap_signed_witness :
    (SignedInt.isSigned = true ∧ (SignedInt.size = 1 ∨ SignedInt.size = 2 ∨ SignedInt.size = 4) ∧
      SignedInt.contains (-1) = true) ∧
    ((((-1 : Int) < 0 → (toUnsignedInt (-1) : Int) = -1 + 2 ^ 32 ∧
      (toUnsignedInt (-1)).testBit 31 = true ∧
      pixelFormatWrap SignedInt (-1) = .error (.assertion
        "pixelFormatWrap(): implementation-specific value already wrapped or too large")) ∧
    ((0 : Int) ≤ -1 → ∃ f : PixelFormat, pixelFormatWrap SignedInt (-1) = .ok f ∧
      (f.value : Int) = 2 ^ 31 + -1))) :=
  ⟨by decide, pixelFormatWrap_signed SignedInt (by decide) (by decide) (-1) (by decide)⟩

/-- C27: unwrapping to a narrower result type truncates.  For every unsigned
32-bit `v < 2 ^ 31`, `pixelFormatUnwrap<UnsignedShort>(pixelFormatWrap(v))` equals
`v mod 2 ^ 16`, so the round trip through a 16-bit result type returns `v` if and
only if `v < 2 ^ 16`. -/
theorem pixelFormatUnwrap_UnsignedShort (v : Nat) (h : v < 2 ^ 31) :
    ∃ f : PixelFormat, pixelFormatWrap UnsignedInt (v : Int) = .ok f ∧
      pixelFormatUnwrap UnsignedShort f = .ok ((v % 2 ^ 16 : Nat) : Int) ∧
      (pixelFormatUnwrap UnsignedShort f = .ok (v : Int) ↔ v < 2 ^ 16) := by
  refine ⟨PixelFormat.ofUnsignedInt (2 ^ 31 + v), pixelFormatWrap_natCast h, ?_⟩
  have hval : (PixelFormat.ofUnsignedInt (2 ^ 31 + v)).value = 2 ^ 31 + v :=
    Nat.mod_eq_of_lt (by omega)
  have hbit : (PixelFormat.ofUnsignedInt (2 ^ 31 + v)).value.testBit 31 = true := by
    rw [hval]
    exact (testBit_highBit_iff (by omega)).mpr (by omega)
  have hlow : (2 ^ 31 + v) % 2 ^ 31 = v := by omega
  have hun : pixelFormatUnwrap UnsignedShort (PixelFormat.ofUnsignedInt (2 ^ 31 + v)) =
      .ok ((v % 2 ^ 16 : Nat) : Int) := by
    rw [pixelFormatUnwrap_eq_ok UnsignedShort hbit, hval, hlow, convert_UnsignedShort_natCast]
  refine ⟨hun, ?_⟩
  rw [hun]
  constructor
  · intro heq
    have hinj : ((v % 2 ^ 16 : Nat) : Int) = (v : Int) := by
      injection heq
    omega
  · intro hv
    have hmod : v % 2 ^ 16 = v := Nat.mod_eq_of_lt hv
    rw [hmod]

theorem pixelFormatUnwrap_UnsignedShort_witness :
    (0x51234 : Nat) < 2 ^ 31 ∧
    ∃ f : PixelFormat, pixelFormatWrap UnsignedInt ((0x51234 : Nat) : Int) = .ok f ∧
      pixelFormatUnwrap UnsignedShort f = .ok ((0x51234 % 2 ^ 16 : Nat) : Int) ∧
      (pixelFormatUnwrap UnsignedShort f = .ok ((0x51234 : Nat) : Int) ↔
        (0x51234 : Nat) < 2 ^ 16) :=
  ⟨by decide, pixelFormatUnwrap_UnsignedShort 0x51234 (by decide)⟩

end Magnum
